import Mathlib

set_option linter.unusedVariables false

/-!
Shallow embedding of the SPI wrapper in
`src/libraries/SPI/src/SPI.cpp` (Arduino core SPI master library for STM32).

The wrapper holds a pin structure (`_spi`) and a settings structure
(`_spiSettings`) and forwards calls to the HAL driver functions
`spi_init`, `spi_transfer`, `spi_deinit`, `spi_getClkFreq`.  The driver is
external, so every method is embedded as a pure function from the wrapper's
state (plus an environment oracle describing what the driver does) to the
new state, the return value, and the trace of driver calls made.
-/

/-- Modelled from the spec: the driver-level data-mode type `spi_mode_e`
with constants `SPI_MODE_0` .. `SPI_MODE_3` is declared in the HAL header
`spi_com.h`, which is not part of this slice; the spec calls them
"the corresponding driver-level mode constants". -/
inductive spi_mode_e
  | SPI_MODE_0
  | SPI_MODE_1
  | SPI_MODE_2
  | SPI_MODE_3
deriving DecidableEq, Repr

/-- Modelled from the spec: the Arduino-level macro `SPI_MODE0` from `SPI.h`
(not in this slice); the standard Arduino API value is 0. -/
def SPI_MODE0 : Nat := 0

/-- Modelled from the spec: the Arduino-level macro `SPI_MODE1` from `SPI.h`
(not in this slice); the standard Arduino API value is 1. -/
def SPI_MODE1 : Nat := 1

/-- Modelled from the spec: the Arduino-level macro `SPI_MODE2` from `SPI.h`
(not in this slice); the standard Arduino API value is 2. -/
def SPI_MODE2 : Nat := 2

/-- Modelled from the spec: the Arduino-level macro `SPI_MODE3` from `SPI.h`
(not in this slice); the standard Arduino API value is 3. -/
def SPI_MODE3 : Nat := 3

/-- Modelled from the spec: the `BitOrder` constant `LSBFIRST` from the
core header `wiring_constants.h` (not in this slice); the standard Arduino
API the spec says this wrapper exposes defines `LSBFIRST = 0`. -/
def LSBFIRST : Nat := 0

/-- Modelled from the spec: the `BitOrder` constant `MSBFIRST` from the
core header `wiring_constants.h` (not in this slice); the standard Arduino
API the spec says this wrapper exposes defines `MSBFIRST = 1`. -/
def MSBFIRST : Nat := 1

/-- Modelled from the spec: the default clock speed macro
`SPI_SPEED_CLOCK_DEFAULT` from `SPI.h` (not in this slice).  The claims
depend only on its identity, not its value (4 MHz in the header). -/
def SPI_SPEED_CLOCK_DEFAULT : Nat := 4000000

/-- Modelled from the spec: the fixed transfer timeout macro
`SPI_TRANSFER_TIMEOUT` from `SPI.h` (not in this slice).  The spec only
says transfers use "a fixed timeout"; the claims depend only on its
identity, not its value (1000 ms in the header). -/
def SPI_TRANSFER_TIMEOUT : Nat := 1000

/-- Modelled from the spec: the HAL constant `HAL_SPI_STATE_RESET`
(not in this slice); value 0 in the HAL headers. -/
def HAL_SPI_STATE_RESET : Nat := 0

/-- Modelled from the spec: the "not connected" pin name `NC` from
`PinNames.h` (not in this slice). -/
def NC : Nat := 0xFFFFFFFF

/-- Embedding of the part of the HAL handle (`SPI_HandleTypeDef`) that the
wrapper touches: `begin` writes `_spi.handle.State`. -/
structure SPI_HandleTypeDef where
  State : Nat
deriving DecidableEq, Repr

/-- Embedding of the driver pin/handle structure `spi_t` as used by the
wrapper: four pin names plus the HAL handle. -/
structure spi_t where
  pin_miso : Nat
  pin_mosi : Nat
  pin_sclk : Nat
  pin_ssel : Nat
  handle : SPI_HandleTypeDef
deriving DecidableEq, Repr

/-- Embedding of the settings stored by the wrapper (`SPISettings` fields
used in `SPI.cpp`): clock frequency, data mode, bit order, and the
`noReceive` flag passed to `spi_transfer` as its `skipReceive` argument. -/
structure SPISettings where
  clk : Nat
  dMode : spi_mode_e
  bOrder : Nat
  noReceive : Bool
deriving DecidableEq, Repr

/-- Embedding of the `SPIClass` object's state: the driver structure
`_spi` and the stored settings `_spiSettings`. -/
structure SPIClass where
  _spi : spi_t
  _spiSettings : SPISettings
deriving DecidableEq, Repr

/-- One call made into the HAL driver, recorded with the arguments the
wrapper passes (the `spi_t` pointer argument is the object's own `_spi`
in every call, so it is not recorded). -/
inductive DriverCall
  | init (clk : Nat) (dMode : spi_mode_e) (bOrder : Nat)
  | transfer8 (tx : Nat) (timeout : Nat) (skipReceive : Bool)
  | transfer16w (tx : Nat) (timeout : Nat) (skipReceive : Bool)
  | transferBuf (txOut : List Nat) (count : Nat) (timeout : Nat) (skipReceive : Bool)
  | getClkFreq
  | deinit
deriving DecidableEq, Repr

/-- Environment oracle for one `spi_transfer` call: the status the driver
returns (the wrapper never looks at it) and the value the driver writes
into the caller's receive buffer (`none` means the driver left the
buffer untouched, e.g. on failure or with `skipReceive`). -/
structure TransferEnv where
  status : Nat
  rxWrite : Option Nat
deriving DecidableEq, Repr

/-- The `spi_init(&_spi, _spiSettings.clk, _spiSettings.dMode,
_spiSettings.bOrder)` call that every configuration method makes,
with the stored settings read back verbatim. -/
def spi_init_call (s : SPIClass) : DriverCall :=
  DriverCall.init s._spiSettings.clk s._spiSettings.dMode s._spiSettings.bOrder

/-- Embedding of `SPIClass::SPIClass()` (SPI.cpp lines 19-25): maps the
default pins through `digitalPinToPinName` and sets `pin_ssel` to `NC`.
`digitalPinToPinName` is an external pin-mapping function, passed as an
oracle; the default `SPISettings` come from the header's default
constructor, passed in as `defaults`. -/
def SPIClass.ctorDefault (digitalPinToPinName : Nat → Nat)
    (MISO MOSI SCK : Nat) (defaults : SPISettings) (handle0 : SPI_HandleTypeDef) :
    SPIClass :=
  { _spi :=
      { pin_miso := digitalPinToPinName MISO
        pin_mosi := digitalPinToPinName MOSI
        pin_sclk := digitalPinToPinName SCK
        pin_ssel := NC
        handle := handle0 }
    _spiSettings := defaults }

/-- Embedding of `SPIClass::SPIClass(mosi, miso, sclk, ssel)`
(SPI.cpp lines 46-52). -/
def SPIClass.ctorPins (digitalPinToPinName : Nat → Nat)
    (mosi miso sclk ssel : Nat) (defaults : SPISettings) (handle0 : SPI_HandleTypeDef) :
    SPIClass :=
  { _spi :=
      { pin_miso := digitalPinToPinName miso
        pin_mosi := digitalPinToPinName mosi
        pin_sclk := digitalPinToPinName sclk
        pin_ssel := digitalPinToPinName ssel
        handle := handle0 }
    _spiSettings := defaults }

/-- Embedding of `SPIClass::begin()` (SPI.cpp lines 57-63): resets the HAL
handle state and calls `spi_init` with the stored settings. -/
def SPIClass.begin (s : SPIClass) : SPIClass × List DriverCall :=
  let s1 : SPIClass :=
    { s with _spi := { s._spi with handle := { State := HAL_SPI_STATE_RESET } } }
  (s1, [spi_init_call s1])

/-- Embedding of `SPIClass::beginTransaction(SPISettings)` (SPI.cpp lines
70-80): copies the four settings fields, then calls `spi_init` with the
stored clock, mode, and bit order. -/
def SPIClass.beginTransaction (s : SPIClass) (settings : SPISettings) :
    SPIClass × List DriverCall :=
  let s1 : SPIClass :=
    { s with _spiSettings :=
        { clk := settings.clk
          dMode := settings.dMode
          bOrder := settings.bOrder
          noReceive := settings.noReceive } }
  (s1, [spi_init_call s1])

/-- Embedding of `SPIClass::endTransaction()` (SPI.cpp lines 85-88): the
body is empty. -/
def SPIClass.endTransaction (s : SPIClass) : SPIClass × List DriverCall :=
  (s, [])

/-- Embedding of `SPIClass::end()` (SPI.cpp lines 93-96): calls
`spi_deinit`. -/
def SPIClass.«end» (s : SPIClass) : SPIClass × List DriverCall :=
  (s, [DriverCall.deinit])

/-- Embedding of `SPIClass::setBitOrder(BitOrder)` (SPI.cpp lines
103-110): stores the bit order and reinitializes the driver. -/
def SPIClass.setBitOrder (s : SPIClass) (bitOrder : Nat) :
    SPIClass × List DriverCall :=
  let s1 : SPIClass := { s with _spiSettings := { s._spiSettings with bOrder := bitOrder } }
  (s1, [spi_init_call s1])

/-- Embedding of `SPIClass::setDataMode(uint8_t)` (SPI.cpp lines 123-138):
maps `SPI_MODE0..3` to `SPI_MODE_0..3` through the if/else-if chain
(leaving the stored mode unchanged for any other input) and then
reinitializes the driver with the stored settings. -/
def SPIClass.setDataMode (s : SPIClass) (mode : Nat) :
    SPIClass × List DriverCall :=
  let d : spi_mode_e :=
    if SPI_MODE0 = mode then spi_mode_e.SPI_MODE_0
    else if SPI_MODE1 = mode then spi_mode_e.SPI_MODE_1
    else if SPI_MODE2 = mode then spi_mode_e.SPI_MODE_2
    else if SPI_MODE3 = mode then spi_mode_e.SPI_MODE_3
    else s._spiSettings.dMode
  let s1 : SPIClass := { s with _spiSettings := { s._spiSettings with dMode := d } }
  (s1, [spi_init_call s1])

/-- Embedding of `SPIClass::setClockDivider(uint8_t)` (SPI.cpp lines
146-158): divider 0 selects the default speed; otherwise the stored clock
becomes `spi_getClkFreq(&_spi) / _divider` (the driver's reported
frequency, passed in as the oracle `spiClkFreq`, is queried only in that
branch).  Either way the driver is reinitialized with the stored
settings. -/
def SPIClass.setClockDivider (s : SPIClass) (spiClkFreq : Nat) (divider : Nat) :
    SPIClass × List DriverCall :=
  if divider = 0 then
    let s1 : SPIClass :=
      { s with _spiSettings := { s._spiSettings with clk := SPI_SPEED_CLOCK_DEFAULT } }
    (s1, [spi_init_call s1])
  else
    let s1 : SPIClass :=
      { s with _spiSettings := { s._spiSettings with clk := spiClkFreq / divider } }
    (s1, [DriverCall.getClkFreq, spi_init_call s1])

/-- Embedding of `byte SPIClass::transfer(uint8_t)` (SPI.cpp lines
166-171): a one-byte receive buffer initialized to 0, one `spi_transfer`
call with the fixed timeout and the stored `noReceive` flag, and the
buffer's content returned; the driver's status is never inspected. -/
def SPIClass.transfer (s : SPIClass) (env : TransferEnv) (data : Nat) :
    SPIClass × Nat × List DriverCall :=
  let rx_buffer : Nat := 0
  let rx_buffer := env.rxWrite.getD rx_buffer
  (s, rx_buffer,
    [DriverCall.transfer8 data SPI_TRANSFER_TIMEOUT s._spiSettings.noReceive])

/-- Exact embedding of the byte-swap expression in `transfer16`
(SPI.cpp lines 185 and 192):
`((w & 0xff00) >> 8) | ((w & 0xff) << 8)`. -/
def swapBytes16 (w : Nat) : Nat :=
  ((w &&& 0xff00) >>> 8) ||| ((w &&& 0xff) <<< 8)

/-- Embedding of `uint16_t SPIClass::transfer16(uint16_t)` (SPI.cpp lines
179-197): if `_spiSettings.bOrder` is truthy the outgoing word is
byte-swapped before the `spi_transfer` call and the received word is
byte-swapped before being returned; the receive buffer starts at 0 and
holds whatever the driver wrote (`env.rxWrite`). -/
def SPIClass.transfer16 (s : SPIClass) (env : TransferEnv) (data : Nat) :
    SPIClass × Nat × List DriverCall :=
  let data1 : Nat := if s._spiSettings.bOrder ≠ 0 then swapBytes16 data else data
  let rx_buffer : Nat := 0
  let rx_buffer := env.rxWrite.getD rx_buffer
  let rx_buffer := if s._spiSettings.bOrder ≠ 0 then swapBytes16 rx_buffer else rx_buffer
  (s, rx_buffer,
    [DriverCall.transfer16w data1 SPI_TRANSFER_TIMEOUT s._spiSettings.noReceive])

/-- Embedding of `void SPIClass::transfer(void *_buf, size_t _count)`
(SPI.cpp lines 206-212): the driver is called only when the count is
nonzero and the buffer pointer is non-null (`none` models `NULL`). -/
def SPIClass.transferBuf (s : SPIClass) (buf : Option (List Nat)) (count : Nat) :
    SPIClass × List DriverCall :=
  if count ≠ 0 ∧ buf ≠ none then
    (s, [DriverCall.transferBuf (buf.getD []) count SPI_TRANSFER_TIMEOUT
          s._spiSettings.noReceive])
  else
    (s, [])

/-- Embedding of `void SPIClass::transfer(void *_bufout, void *_bufin,
size_t _count)` (SPI.cpp lines 222-228): the driver is called only when
the count is nonzero and both buffer pointers are non-null. -/
def SPIClass.transferBuf2 (s : SPIClass) (bufout bufin : Option (List Nat))
    (count : Nat) : SPIClass × List DriverCall :=
  if count ≠ 0 ∧ bufout ≠ none ∧ bufin ≠ none then
    (s, [DriverCall.transferBuf (bufout.getD []) count SPI_TRANSFER_TIMEOUT
          s._spiSettings.noReceive])
  else
    (s, [])

/-- Embedding of `SPIClass::usingInterrupt(uint8_t)` (SPI.cpp lines
233-236): the body only discards its argument. -/
def SPIClass.usingInterrupt (s : SPIClass) (interruptNumber : Nat) :
    SPIClass × List DriverCall :=
  (s, [])

/-- Embedding of `SPIClass::attachInterrupt()` (SPI.cpp lines 241-244):
empty body. -/
def SPIClass.attachInterrupt (s : SPIClass) : SPIClass × List DriverCall :=
  (s, [])

/-- Embedding of `SPIClass::detachInterrupt()` (SPI.cpp lines 249-252):
empty body. -/
def SPIClass.detachInterrupt (s : SPIClass) : SPIClass × List DriverCall :=
  (s, [])

/-- True for the `DriverCall`s that record an `spi_transfer` invocation. -/
def DriverCall.isSpiTransfer : DriverCall → Bool
  | DriverCall.transfer8 _ _ _ => true
  | DriverCall.transfer16w _ _ _ => true
  | DriverCall.transferBuf _ _ _ _ => true
  | _ => false

/-- The timeout argument of a recorded `spi_transfer` call, if any. -/
def DriverCall.timeoutOf : DriverCall → Option Nat
  | DriverCall.transfer8 _ t _ => some t
  | DriverCall.transfer16w _ t _ => some t
  | DriverCall.transferBuf _ _ t _ => some t
  | _ => none

/-- A driver-call trace contains at most one `spi_transfer` call, and
every `spi_transfer` call in it carries the fixed `SPI_TRANSFER_TIMEOUT`
timeout. -/
def transferCallsOk (l : List DriverCall) : Bool :=
  decide ((l.filter DriverCall.isSpiTransfer).length ≤ 1) &&
    l.all (fun c => !c.isSpiTransfer || c.timeoutOf == some SPI_TRANSFER_TIMEOUT)

/-- A concrete pin structure for closed witnesses and counterexamples. -/
def exPins : spi_t :=
  { pin_miso := 12, pin_mosi := 11, pin_sclk := 13, pin_ssel := NC
    handle := { State := 0 } }

/-- A concrete wrapper state with MSB-first bit order. -/
def exState : SPIClass :=
  { _spi := exPins
    _spiSettings :=
      { clk := 4000000, dMode := spi_mode_e.SPI_MODE_0, bOrder := MSBFIRST
        noReceive := false } }

/-- A concrete wrapper state with LSB-first bit order. -/
def exStateLSB : SPIClass :=
  { _spi := exPins
    _spiSettings :=
      { clk := 4000000, dMode := spi_mode_e.SPI_MODE_0, bOrder := LSBFIRST
        noReceive := false } }

/-- A concrete wrapper state equal to `exStateLSB` except that its
`noReceive` flag is set. -/
def exStateNoRecv : SPIClass :=
  { _spi := exPins
    _spiSettings :=
      { clk := 4000000, dMode := spi_mode_e.SPI_MODE_0, bOrder := LSBFIRST
        noReceive := true } }

/-- A concrete transfer environment: the driver reports status 0 and
writes 0x2211 into the receive buffer. -/
def exEnv : TransferEnv :=
  { status := 0, rxWrite := some 0x2211 }

/-!
Theorems settling the claims.
-/

/-- C1, as written, is false on the code: with the bit order set to
`LSBFIRST` (which the claim says "requests LSB-first transmission" and
hence should trigger the byte swap), `transfer16` hands the word 0x1234 to
`spi_transfer` unmodified and returns the driver's word unmodified, while
with the bit order set to `MSBFIRST` (which the claim says should leave
the word unmodified) it hands over the byte-swapped word 0x3412. -/
theorem C1_counterexample :
    (exStateLSB.transfer16 exEnv 0x1234).2.2 =
      [DriverCall.transfer16w 0x1234 SPI_TRANSFER_TIMEOUT false] ∧
    (exStateLSB.transfer16 exEnv 0x1234).2.1 = 0x2211 ∧
    (exState.transfer16 exEnv 0x1234).2.2 =
      [DriverCall.transfer16w 0x3412 SPI_TRANSFER_TIMEOUT false] ∧
    swapBytes16 0x1234 = 0x3412 ∧ (0x1234 : Nat) ≠ 0x3412 := by
  decide

/-- C1 (amended): for every 16-bit input word, `transfer16` byte-swaps the
word before handing it to `spi_transfer`, and byte-swaps the word received
back before returning it, exactly when the configured bit order requests
MSB-first transmission (`bOrder = MSBFIRST`, the truthy value); when the
bit order requests LSB-first (`bOrder = LSBFIRST = 0`), the word is passed
to the driver and returned unmodified. -/
theorem C1_transfer16_byte_order (s : SPIClass) (env : TransferEnv) (data : Nat)
    (hdata : data < 65536) :
    (s._spiSettings.bOrder = LSBFIRST →
      (s.transfer16 env data).2.2 =
        [DriverCall.transfer16w data SPI_TRANSFER_TIMEOUT s._spiSettings.noReceive] ∧
      (s.transfer16 env data).2.1 = env.rxWrite.getD 0) ∧
    (s._spiSettings.bOrder = MSBFIRST →
      (s.transfer16 env data).2.2 =
        [DriverCall.transfer16w (swapBytes16 data) SPI_TRANSFER_TIMEOUT
          s._spiSettings.noReceive] ∧
      (s.transfer16 env data).2.1 = swapBytes16 (env.rxWrite.getD 0)) := by
  constructor
  · intro h
    simp [SPIClass.transfer16, h, LSBFIRST]
  · intro h
    simp [SPIClass.transfer16, h, MSBFIRST]

/-- Closed witness for `C1_transfer16_byte_order` at concrete inputs. -/
theorem C1_transfer16_byte_order_witness :
    ((0x1234 : Nat) < 65536 ∧
      exStateLSB._spiSettings.bOrder = LSBFIRST ∧
      (exStateLSB.transfer16 exEnv 0x1234).2.2 =
        [DriverCall.transfer16w 0x1234 SPI_TRANSFER_TIMEOUT
          exStateLSB._spiSettings.noReceive]) ∧
    (exState._spiSettings.bOrder = MSBFIRST ∧
      (exState.transfer16 exEnv 0x1234).2.2 =
        [DriverCall.transfer16w (swapBytes16 0x1234) SPI_TRANSFER_TIMEOUT
          exState._spiSettings.noReceive]) :=
  ⟨⟨by decide, rfl,
    ((C1_transfer16_byte_order exStateLSB exEnv 0x1234 (by decide)).1 rfl).1⟩,
   ⟨rfl,
    ((C1_transfer16_byte_order exState exEnv 0x1234 (by decide)).2 rfl).1⟩⟩

/-- C2: `beginTransaction` stores the given settings and immediately
passes the stored clock frequency, data mode, and bit order verbatim to
`spi_init`, and `begin` passes the currently stored settings verbatim to
`spi_init`. -/
theorem C2_init_settings_verbatim (s : SPIClass) (settings : SPISettings) :
    (s.beginTransaction settings).1._spiSettings = settings ∧
    (s.beginTransaction settings).2 =
      [DriverCall.init settings.clk settings.dMode settings.bOrder] ∧
    (s.begin).1._spiSettings = s._spiSettings ∧
    (s.begin).2 =
      [DriverCall.init s._spiSettings.clk s._spiSettings.dMode
        s._spiSettings.bOrder] :=
  ⟨rfl, rfl, rfl, rfl⟩

/-- C3: the one-buffer overload invokes `spi_transfer` iff the count is
nonzero and the buffer is non-null, the two-buffer overload invokes
`spi_transfer` iff the count is nonzero and both buffers are non-null, and
otherwise the driver is not called and the object's state is unchanged. -/
theorem C3_buffer_guards (s : SPIClass) (buf bufout bufin : Option (List Nat))
    (count : Nat) :
    ((s.transferBuf buf count).2.any DriverCall.isSpiTransfer = true ↔
      count ≠ 0 ∧ buf ≠ none) ∧
    (¬(count ≠ 0 ∧ buf ≠ none) → s.transferBuf buf count = (s, [])) ∧
    ((s.transferBuf2 bufout bufin count).2.any DriverCall.isSpiTransfer = true ↔
      count ≠ 0 ∧ bufout ≠ none ∧ bufin ≠ none) ∧
    (¬(count ≠ 0 ∧ bufout ≠ none ∧ bufin ≠ none) →
      s.transferBuf2 bufout bufin count = (s, [])) := by
  refine ⟨?_, ?_, ?_, ?_⟩
  · by_cases h : count ≠ 0 ∧ buf ≠ none <;>
      simp [SPIClass.transferBuf, h, DriverCall.isSpiTransfer]
  · intro h
    simp [SPIClass.transferBuf, h]
  · by_cases h : count ≠ 0 ∧ bufout ≠ none ∧ bufin ≠ none <;>
      simp [SPIClass.transferBuf2, h, DriverCall.isSpiTransfer]
  · intro h
    simp [SPIClass.transferBuf2, h]

/-- Closed witness for `C3_buffer_guards`: with a zero count the driver is
not called and the state is unchanged, for both overloads. -/
theorem C3_buffer_guards_witness :
    (¬((0 : Nat) ≠ 0 ∧ (some [1, 2] : Option (List Nat)) ≠ none) ∧
      exState.transferBuf (some [1, 2]) 0 = (exState, [])) ∧
    (¬((0 : Nat) ≠ 0 ∧ (some [1, 2] : Option (List Nat)) ≠ none ∧
        (some [3, 4] : Option (List Nat)) ≠ none) ∧
      exState.transferBuf2 (some [1, 2]) (some [3, 4]) 0 = (exState, [])) :=
  ⟨⟨by decide,
    (C3_buffer_guards exState (some [1, 2]) (some [1, 2]) (some [3, 4]) 0).2.1
      (by decide)⟩,
   ⟨by decide,
    (C3_buffer_guards exState (some [1, 2]) (some [1, 2]) (some [3, 4]) 0).2.2.2
      (by decide)⟩⟩

/-- C4: `setDataMode` maps `SPI_MODE0` to `SPI_MODE_0`, `SPI_MODE1` to
`SPI_MODE_1`, `SPI_MODE2` to `SPI_MODE_2`, and `SPI_MODE3` to
`SPI_MODE_3`, and in each case reinitializes the driver with the stored
settings (the updated mode together with the stored clock and bit
order). -/
theorem C4_setDataMode_mapping (s : SPIClass) :
    ((s.setDataMode SPI_MODE0).1._spiSettings.dMode = spi_mode_e.SPI_MODE_0 ∧
      (s.setDataMode SPI_MODE0).2 =
        [DriverCall.init s._spiSettings.clk spi_mode_e.SPI_MODE_0
          s._spiSettings.bOrder]) ∧
    ((s.setDataMode SPI_MODE1).1._spiSettings.dMode = spi_mode_e.SPI_MODE_1 ∧
      (s.setDataMode SPI_MODE1).2 =
        [DriverCall.init s._spiSettings.clk spi_mode_e.SPI_MODE_1
          s._spiSettings.bOrder]) ∧
    ((s.setDataMode SPI_MODE2).1._spiSettings.dMode = spi_mode_e.SPI_MODE_2 ∧
      (s.setDataMode SPI_MODE2).2 =
        [DriverCall.init s._spiSettings.clk spi_mode_e.SPI_MODE_2
          s._spiSettings.bOrder]) ∧
    ((s.setDataMode SPI_MODE3).1._spiSettings.dMode = spi_mode_e.SPI_MODE_3 ∧
      (s.setDataMode SPI_MODE3).2 =
        [DriverCall.init s._spiSettings.clk spi_mode_e.SPI_MODE_3
          s._spiSettings.bOrder]) :=
  ⟨⟨rfl, rfl⟩, ⟨rfl, rfl⟩, ⟨rfl, rfl⟩, ⟨rfl, rfl⟩⟩

/-- C5: each transfer operation (one byte, 16-bit, and both buffer
overloads) makes at most one `spi_transfer` call per invocation, and every
`spi_transfer` call it makes carries the fixed `SPI_TRANSFER_TIMEOUT`
timeout. -/
theorem C5_single_transfer_fixed_timeout (s : SPIClass) (env : TransferEnv)
    (data data16 count count2 : Nat) (buf bufout bufin : Option (List Nat)) :
    transferCallsOk (s.transfer env data).2.2 = true ∧
    transferCallsOk (s.transfer16 env data16).2.2 = true ∧
    transferCallsOk (s.transferBuf buf count).2 = true ∧
    transferCallsOk (s.transferBuf2 bufout bufin count2).2 = true := by
  refine ⟨rfl, rfl, ?_, ?_⟩
  · unfold SPIClass.transferBuf
    split
    · rfl
    · rfl
  · unfold SPIClass.transferBuf2
    split
    · rfl
    · rfl

/-- C6, as written, is false on the code: the wrapper's behavior is not a
function of the four pins plus the three settings (clock, mode, bit order)
alone.  Two states that agree on all seven of those fields but differ in
the stored `noReceive` flag hand different `skipReceive` arguments to
`spi_transfer`, so the `noReceive` flag is a further piece of mutable
state (stored by `beginTransaction`, read by every transfer). -/
theorem C6_counterexample :
    (exStateLSB._spi = exStateNoRecv._spi ∧
      exStateLSB._spiSettings.clk = exStateNoRecv._spiSettings.clk ∧
      exStateLSB._spiSettings.dMode = exStateNoRecv._spiSettings.dMode ∧
      exStateLSB._spiSettings.bOrder = exStateNoRecv._spiSettings.bOrder) ∧
    (exStateLSB.transfer exEnv 0).2.2 ≠ (exStateNoRecv.transfer exEnv 0).2.2 := by
  decide

/-- C6 (amended): the wrapper's mutable state consists of the four pin
identifiers, the HAL handle state, and four transfer settings (clock
frequency, data mode, bit order, and the `noReceive` flag); the
configuration calls mutate only the settings (and `begin` additionally
resets the handle state, leaving the pins untouched), and the forwarding
methods read the stored state back verbatim when calling the driver. -/
theorem C6_state_and_forwarding (s : SPIClass) (settings : SPISettings)
    (bitOrder mode f d : Nat) (env : TransferEnv) (data : Nat) :
    (s.beginTransaction settings).1._spi = s._spi ∧
    (s.beginTransaction settings).1._spiSettings = settings ∧
    (s.setBitOrder bitOrder).1._spi = s._spi ∧
    (s.setBitOrder bitOrder).1._spiSettings =
      { s._spiSettings with bOrder := bitOrder } ∧
    (s.setDataMode mode).1._spi = s._spi ∧
    (s.setClockDivider f d).1._spi = s._spi ∧
    (s.begin).1._spiSettings = s._spiSettings ∧
    (s.begin).1._spi.pin_miso = s._spi.pin_miso ∧
    (s.begin).1._spi.pin_mosi = s._spi.pin_mosi ∧
    (s.begin).1._spi.pin_sclk = s._spi.pin_sclk ∧
    (s.begin).1._spi.pin_ssel = s._spi.pin_ssel ∧
    (s.begin).1._spi.handle.State = HAL_SPI_STATE_RESET ∧
    (s.transfer env data).1 = s ∧
    (s.transfer env data).2.2 =
      [DriverCall.transfer8 data SPI_TRANSFER_TIMEOUT s._spiSettings.noReceive] ∧
    (s.beginTransaction settings).2 =
      [DriverCall.init settings.clk settings.dMode settings.bOrder] ∧
    (s.setBitOrder bitOrder).2 =
      [DriverCall.init s._spiSettings.clk s._spiSettings.dMode bitOrder] := by
  refine ⟨rfl, rfl, rfl, rfl, ?_, ?_, rfl, rfl, rfl, rfl, rfl, rfl, rfl, rfl,
    rfl, rfl⟩
  · unfold SPIClass.setDataMode
    rfl
  · unfold SPIClass.setClockDivider
    split
    · rfl
    · rfl

/-- C7: the single-byte transfer performs no failure handling: for every
input byte and every driver behavior (any status, any write to the
receive buffer) it emits exactly one `spi_transfer` call and returns
whatever the driver left in its one-byte receive buffer initialized to 0,
with the returned value independent of the driver's status. -/
theorem C7_transfer_no_error_handling (s : SPIClass) (status : Nat)
    (rxw : Option Nat) (data : Nat) :
    (s.transfer ⟨status, rxw⟩ data).2.1 = rxw.getD 0 ∧
    (s.transfer ⟨status, rxw⟩ data).2.2 =
      [DriverCall.transfer8 data SPI_TRANSFER_TIMEOUT s._spiSettings.noReceive] ∧
    (s.transfer ⟨status, rxw⟩ data).1 = s :=
  ⟨rfl, rfl, rfl⟩

/-- C8: `setClockDivider` with divider 0 stores the default speed
`SPI_SPEED_CLOCK_DEFAULT` without querying `spi_getClkFreq`; with any
nonzero divider `d` it stores `spi_getClkFreq(&_spi) / d` (the division is
only reached under the guard `d ≠ 0`); in both cases the pins are
untouched and the driver is reinitialized with the stored settings. -/
theorem C8_setClockDivider_guarded (s : SPIClass) (f d : Nat) :
    (d = 0 →
      (s.setClockDivider f d).1._spiSettings.clk = SPI_SPEED_CLOCK_DEFAULT ∧
      (s.setClockDivider f d).2 = [spi_init_call (s.setClockDivider f d).1]) ∧
    (d ≠ 0 →
      (s.setClockDivider f d).1._spiSettings.clk = f / d ∧
      (s.setClockDivider f d).2 =
        [DriverCall.getClkFreq, spi_init_call (s.setClockDivider f d).1]) ∧
    (s.setClockDivider f d).1._spi = s._spi := by
  refine ⟨?_, ?_, ?_⟩
  · intro h
    simp [SPIClass.setClockDivider, h]
  · intro h
    simp [SPIClass.setClockDivider, h, spi_init_call]
  · unfold SPIClass.setClockDivider
    split
    · rfl
    · rfl

/-- Closed witness for `C8_setClockDivider_guarded` at divider 0 and at
divider 4. -/
theorem C8_setClockDivider_guarded_witness :
    ((0 : Nat) = 0 ∧
      (exState.setClockDivider 64000000 0).1._spiSettings.clk =
        SPI_SPEED_CLOCK_DEFAULT) ∧
    ((4 : Nat) ≠ 0 ∧
      (exState.setClockDivider 64000000 4).1._spiSettings.clk = 64000000 / 4) :=
  ⟨⟨rfl, ((C8_setClockDivider_guarded exState 64000000 0).1 rfl).1⟩,
   ⟨by decide, ((C8_setClockDivider_guarded exState 64000000 4).2.1 (by decide)).1⟩⟩

/-- C9: `endTransaction`, `usingInterrupt`, `attachInterrupt`, and
`detachInterrupt` are no-ops: each returns the state unchanged and makes
no driver call. -/
theorem C9_noop_methods (s : SPIClass) (n : Nat) :
    s.endTransaction = (s, []) ∧
    s.usingInterrupt n = (s, []) ∧
    s.attachInterrupt = (s, []) ∧
    s.detachInterrupt = (s, []) :=
  ⟨rfl, rfl, rfl, rfl⟩

/-- C10: for every input mode other than `SPI_MODE0..3`, `setDataMode`
leaves the whole state (stored data mode, all other settings, and pins)
unchanged, yet still calls `spi_init` with the previously stored
settings. -/
theorem C10_setDataMode_other_modes (s : SPIClass) (mode : Nat)
    (h0 : mode ≠ SPI_MODE0) (h1 : mode ≠ SPI_MODE1)
    (h2 : mode ≠ SPI_MODE2) (h3 : mode ≠ SPI_MODE3) :
    (s.setDataMode mode).1 = s ∧
    (s.setDataMode mode).2 = [spi_init_call s] := by
  have g0 : ¬(SPI_MODE0 = mode) := fun h => h0 h.symm
  have g1 : ¬(SPI_MODE1 = mode) := fun h => h1 h.symm
  have g2 : ¬(SPI_MODE2 = mode) := fun h => h2 h.symm
  have g3 : ¬(SPI_MODE3 = mode) := fun h => h3 h.symm
  simp [SPIClass.setDataMode, g0, g1, g2, g3, spi_init_call]

/-- Closed witness for `C10_setDataMode_other_modes` at mode 42. -/
theorem C10_setDataMode_other_modes_witness :
    ((42 : Nat) ≠ SPI_MODE0 ∧ (42 : Nat) ≠ SPI_MODE1 ∧
      (42 : Nat) ≠ SPI_MODE2 ∧ (42 : Nat) ≠ SPI_MODE3) ∧
    (exState.setDataMode 42).1 = exState ∧
    (exState.setDataMode 42).2 = [spi_init_call exState] :=
  ⟨⟨by decide, by decide, by decide, by decide⟩,
    C10_setDataMode_other_modes exState 42 (by decide) (by decide) (by decide)
      (by decide)⟩
